import Mathlib

/-!
Verification of the system-health-monitor repository.

The repository contains four progressive versions of the same monitor
(`project.py`, `02_project.py`, `03_project.py`, `04_project.py`); the
Level-3 file `04_project.py` is the final implementation and the primary
subject.  We embed its per-endpoint alert state machine
(`HealthMonitor.should_alert`), the inline classification and alert
dispatch of `HealthMonitor.run`, the state-store load/save logic, a
dynamically-typed (dict-shaped) variant of `should_alert` to reason about
malformed records, and the Level-1 decision engine from `project.py` for
the cross-version equivalence claim.
-/

namespace HealthMonitor

/-- The persisted per-endpoint record of `04_project.py`: the dict
`{"failures": int, "alerted": bool}` created by `should_alert`'s
`setdefault`.  Python integers are embedded as `Int`. -/
structure Rec where
  failures : Int
  alerted : Bool
deriving Repr, DecidableEq

/-- The fresh record inserted by `setdefault` when the key is absent:
`{"failures": 0, "alerted": False}`. -/
def freshRec : Rec := ⟨0, false⟩

/-- The value returned by `should_alert` in `04_project.py`:
`True` (a DOWN alert must fire), the string `"RECOVERED"`, or `False`. -/
inductive Alert where
  | down
  | recovered
  | none
deriving Repr, DecidableEq

/-- `HealthMonitor.should_alert` of `04_project.py` (lines 170-189) acting
on one endpoint's stored record.  `r0 = Option.none` models the key being
absent from `self.state` (in which case `setdefault` inserts a fresh
record).  Returns the alert decision and the updated record.

Python source:
```
state = self.state.setdefault(key, {"failures": 0, "alerted": False})
if is_down:
    state["failures"] += 1
    if state["failures"] >= ALERT_THRESHOLD and not state["alerted"]:
        state["alerted"] = True
        return True
else:
    if state["failures"] > 0:
        state["failures"] = 0
        state["alerted"] = False
        return "RECOVERED"
return False
```
The threshold `t` models the module constant `ALERT_THRESHOLD`. -/
def should_alert (t : Int) (r0 : Option Rec) (is_down : Bool) : Alert × Rec :=
  let st := r0.getD freshRec
  if is_down then
    let f := st.failures + 1
    if f ≥ t ∧ st.alerted = false then
      (Alert.down, ⟨f, true⟩)
    else
      (Alert.none, ⟨f, st.alerted⟩)
  else
    if st.failures > 0 then
      (Alert.recovered, ⟨0, false⟩)
    else
      (Alert.none, st)

/-- Iterate `should_alert` over a sequence of `is_down` flags for one
endpoint (one call per run of the monitor), collecting the alert
decisions in order. -/
def runChecks (t : Int) : Option Rec → List Bool → List Alert
  | _, [] => []
  | r, d :: ds =>
    let ar := should_alert t r d
    ar.1 :: runChecks t (Option.some ar.2) ds

/-- The record after iterating `should_alert` over a sequence of
`is_down` flags. -/
def runRec (t : Int) : Rec → List Bool → Rec
  | r, [] => r
  | r, d :: ds => runRec t (should_alert t (Option.some r) d).2 ds

/-- Number of DOWN alert decisions in a list of decisions. -/
def countDown (l : List Alert) : Nat :=
  l.countP (fun a => decide (a = Alert.down))

/-- Number of RECOVERED alert decisions in a list of decisions. -/
def countRecovered (l : List Alert) : Nat :=
  l.countP (fun a => decide (a = Alert.recovered))

/-- Records reachable from the fresh record by iterating `should_alert`
with arbitrary `is_down` flags. -/
inductive Reachable (t : Int) : Rec → Prop where
  | fresh : Reachable t freshRec
  | step (r : Rec) (d : Bool) :
      Reachable t r → Reachable t (should_alert t (Option.some r) d).2

/-- The classification of one check: the strings `"UP"`, `"SLOW"`,
`"DOWN"` computed inline in `HealthMonitor.run`. -/
inductive HealthStatus where
  | up
  | slow
  | down
deriving Repr, DecidableEq

/-- The inline classification in `HealthMonitor.run` of `04_project.py`
(lines 200-205):
```
if not is_up:
    status = "DOWN"
elif response_time > MAX_RESPONSE_TIME:
    status = "SLOW"
else:
    status = "UP"
```
Response times (Python floats, rounded to two decimals) and the SLA
constant `MAX_RESPONSE_TIME` are embedded as rationals, which preserves
the ordering comparisons. -/
def classify (maxResponseTime : ℚ) (is_up : Bool) (response_time : ℚ) :
    HealthStatus :=
  if is_up = false then HealthStatus.down
  else if response_time > maxResponseTime then HealthStatus.slow
  else HealthStatus.up

/-- One iteration of the per-endpoint loop body of `HealthMonitor.run`
(`04_project.py` lines 196-211) acting on one endpoint's stored record:
classify the probe outcome, then call
`should_alert(key, status == "DOWN")`.  Returns the status, the alert
decision and the updated record. -/
def runStep (t : Int) (maxResponseTime : ℚ) (r : Option Rec)
    (is_up : Bool) (response_time : ℚ) : HealthStatus × Alert × Rec :=
  let status := classify maxResponseTime is_up response_time
  let ar := should_alert t r (decide (status = HealthStatus.down))
  (status, ar.1, ar.2)

/-- Which alert (if any) `HealthMonitor.run` asks the Slack handler to
deliver for one check (`04_project.py` lines 213-232):
```
if alert is True:          send_alert(..., "DOWN", ...)
elif alert == "RECOVERED": send_alert(..., "RECOVERED", ...)
elif status == "SLOW":     send_alert(..., "SLOW", ...)
```
-/
inductive Sent where
  | down
  | recovered
  | slow
  | nothing
deriving Repr, DecidableEq

/-- The `elif` dispatch of `HealthMonitor.run` deciding which alert is
delivered, from the classification and the `should_alert` decision. -/
def sentAlert (status : HealthStatus) (alert : Alert) : Sent :=
  if alert = Alert.down then Sent.down
  else if alert = Alert.recovered then Sent.recovered
  else if status = HealthStatus.slow then Sent.slow
  else Sent.nothing

/-- The persisted backing data of the state store as seen by
`HealthMonitor.load_state` of `04_project.py` (lines 116-123): the file
may be absent, may fail to decode (`json.JSONDecodeError`), or may
decode to a state mapping.  The mapping is embedded as an association
list from endpoint keys to records. -/
inductive StateFile where
  | absent
  | corrupt
  | wellFormed (m : List (String × Rec))
deriving Repr, DecidableEq

/-- `HealthMonitor.load_state` of `04_project.py` (lines 116-123):
```
if Path(STATE_FILE).exists():
    try:
        with open(STATE_FILE) as f:
            return json.load(f)
    except json.JSONDecodeError:
        logging.warning("Corrupted state file, resetting")
return {}
```
An absent file and an undecodable file both yield the empty mapping;
a decodable file yields its mapping.  Totality of this function is the
no-exception guarantee. -/
def load_state : StateFile → List (String × Rec)
  | StateFile.absent => []
  | StateFile.corrupt => []
  | StateFile.wellFormed m => m

/-- `HealthMonitor.save_state` of `04_project.py` (lines 125-127):
`json.dump(self.state, f)` overwrites the whole file with the encoding
of the in-memory mapping, which is always decodable. -/
def save_state (m : List (String × Rec)) : StateFile :=
  StateFile.wellFormed m

/-- A dynamically-typed value as it may appear in a field of a stored
record loaded from JSON: an integer, a boolean, a string, or `None`. -/
inductive PyVal where
  | int (n : Int)
  | bool (b : Bool)
  | str (s : String)
  | pynone
deriving Repr, DecidableEq

/-- A stored record as a Python dict: an insertion-ordered association
list from field names to dynamically-typed values. -/
abbrev DynRec := List (String × PyVal)

/-- Python dict subscript `d[k]`: the value, or a `KeyError`. -/
def lookupKey (k : String) : DynRec → Except Unit PyVal
  | [] => Except.error ()
  | kv :: rest => if kv.1 = k then Except.ok kv.2 else lookupKey k rest

/-- Python dict assignment `d[k] = v`: update in place, or append. -/
def setKey (k : String) (v : PyVal) : DynRec → DynRec
  | [] => [(k, v)]
  | kv :: rest => if kv.1 = k then (k, v) :: rest else kv :: setKey k v rest

/-- Using a value in integer arithmetic or an integer-order comparison:
Python ints and bools participate (`True` counts as `1`), strings and
`None` raise a `TypeError`. -/
def asNum : PyVal → Except Unit Int
  | PyVal.int n => Except.ok n
  | PyVal.bool b => Except.ok (if b then 1 else 0)
  | PyVal.str _ => Except.error ()
  | PyVal.pynone => Except.error ()

/-- Python truthiness of a value, as used by `not state["alerted"]`:
never raises. -/
def truthy : PyVal → Bool
  | PyVal.int n => decide (n ≠ 0)
  | PyVal.bool b => b
  | PyVal.str s => decide (s ≠ "")
  | PyVal.pynone => false

/-- The default record inserted by `setdefault`, as a dict. -/
def freshDyn : DynRec := [("failures", PyVal.int 0), ("alerted", PyVal.bool false)]

/-- A well-formed stored record as a dict. -/
def mkDyn (f : Int) (a : Bool) : DynRec :=
  [("failures", PyVal.int f), ("alerted", PyVal.bool a)]

/-- `HealthMonitor.should_alert` of `04_project.py` re-embedded over
dynamically-typed dict-shaped records, making the places where Python
would raise (`KeyError` on a missing field, `TypeError` on a
wrongly-typed field in `+= 1`, `>=` or `> 0`) explicit as
`Except.error`.  `setdefault` only inserts the fresh record when the
key is absent (`r0 = Option.none`); a present record is used as-is,
whatever its shape.  The boolean-condition evaluation order (including
the `and` short-circuit before `state["alerted"]` is read) follows the
Python source. -/
def should_alert_dyn (t : Int) (r0 : Option DynRec) (is_down : Bool) :
    Except Unit (Alert × DynRec) :=
  let st := r0.getD freshDyn
  if is_down then
    match lookupKey "failures" st with
    | Except.error e => Except.error e
    | Except.ok v =>
      match asNum v with
      | Except.error e => Except.error e
      | Except.ok n =>
        let st1 := setKey "failures" (PyVal.int (n + 1)) st
        if n + 1 ≥ t then
          match lookupKey "alerted" st1 with
          | Except.error e => Except.error e
          | Except.ok av =>
            if truthy av = false then
              Except.ok (Alert.down, setKey "alerted" (PyVal.bool true) st1)
            else
              Except.ok (Alert.none, st1)
        else
          Except.ok (Alert.none, st1)
  else
    match lookupKey "failures" st with
    | Except.error e => Except.error e
    | Except.ok v =>
      match asNum v with
      | Except.error e => Except.error e
      | Except.ok n =>
        if n > 0 then
          Except.ok (Alert.recovered,
            setKey "alerted" (PyVal.bool false)
              (setKey "failures" (PyVal.int 0) st))
        else
          Except.ok (Alert.none, st)

/-- The Level-1 per-endpoint record of `project.py`: the dict
`{"consecutive_failures": int, "last_alert_sent": None | str}` (the
informational `last_status` field plays no role in the decision). -/
structure Rec1 where
  consecutive_failures : Int
  last_alert_sent : Option String
deriving Repr, DecidableEq

/-- The fresh Level-1 record inserted when the key is absent. -/
def fresh1 : Rec1 := ⟨0, Option.none⟩

/-- Python truthiness of the `last_alert_sent` field, as used by
`not self.state[url]["last_alert_sent"]`: `None` and the empty string
are falsy; any other string is truthy. -/
def truthyStr : Option String → Bool
  | Option.none => false
  | Option.some s => decide (s ≠ "")

/-- `HealthMonitor.should_alert` of `project.py` (lines 69-97).  The
failure episode is tracked via the truthiness of the
`last_alert_sent` timestamp; `now` is the `datetime.now().isoformat()`
string written when the alert fires.

Python source:
```
if url not in self.state:
    self.state[url] = {"consecutive_failures": 0, "last_alert_sent": None, ...}
if is_down:
    self.state[url]["consecutive_failures"] += 1
    failures = self.state[url]["consecutive_failures"]
    if failures >= ALERT_THRESHOLD and not self.state[url]["last_alert_sent"]:
        self.state[url]["last_alert_sent"] = datetime.now().isoformat()
        return True
else:
    self.state[url]["consecutive_failures"] = 0
    self.state[url]["last_alert_sent"] = None
return False
```
-/
def should_alert_v1 (t : Int) (r0 : Option Rec1) (is_down : Bool)
    (now : String) : Bool × Rec1 :=
  let st := r0.getD fresh1
  if is_down then
    let f := st.consecutive_failures + 1
    if f ≥ t ∧ truthyStr st.last_alert_sent = false then
      (true, ⟨f, Option.some now⟩)
    else
      (false, ⟨f, st.last_alert_sent⟩)
  else
    (false, ⟨0, Option.none⟩)

/-- Iterate the Level-1 `should_alert` over a sequence of
`(is_down, timestamp)` pairs, collecting the boolean decisions. -/
def runChecks1 (t : Int) : Option Rec1 → List (Bool × String) → List Bool
  | _, [] => []
  | r, p :: ps =>
    let br := should_alert_v1 t r p.1 p.2
    br.1 :: runChecks1 t (Option.some br.2) ps

/-- The positions of the Level-3 decisions that are the DOWN alert
(`return True` in `04_project.py`), as booleans. -/
def downFlags (l : List Alert) : List Bool :=
  l.map (fun a => decide (a = Alert.down))

end HealthMonitor

namespace HealthMonitor

/-- Unfolding lemma: `runChecks` on a cons. -/
theorem runChecks_cons (t : Int) (r : Option Rec) (d : Bool) (ds : List Bool) :
    runChecks t r (d :: ds) =
      (should_alert t r d).1 ::
        runChecks t (Option.some (should_alert t r d).2) ds := rfl

/-- A DOWN check on an already-alerted record emits no decision and only
increments the counter. -/
theorem should_alert_down_alerted (t : Int) (j : Int) :
    should_alert t (Option.some ⟨j, true⟩) true = (Alert.none, ⟨j + 1, true⟩) := by
  simp [should_alert]

/-- A DOWN check on an unalerted record at or past the threshold fires
the DOWN alert. -/
theorem should_alert_down_fire (t j : Int) (h : t ≤ j + 1) :
    should_alert t (Option.some ⟨j, false⟩) true = (Alert.down, ⟨j + 1, true⟩) := by
  simp [should_alert, h]

/-- A DOWN check on an unalerted record below the threshold only
increments the counter. -/
theorem should_alert_down_wait (t j : Int) (h : ¬ t ≤ j + 1) :
    should_alert t (Option.some ⟨j, false⟩) true = (Alert.none, ⟨j + 1, false⟩) := by
  simp [should_alert, h]

/-- From an already-alerted record, a run of consecutive DOWN checks
produces no DOWN decision at all. -/
theorem countDown_replicate_alerted (t : Int) (m : Nat) :
    ∀ j : Int,
      countDown (runChecks t (Option.some ⟨j, true⟩) (List.replicate m true)) = 0 := by
  induction m with
  | zero => intro j; simp [countDown, runChecks]
  | succ m ih =>
      intro j
      rw [List.replicate_succ, runChecks_cons, should_alert_down_alerted]
      simp only [countDown, List.countP_cons] at ih ⊢
      rw [ih (j + 1)]
      simp

/-- From an unalerted record with `j` accumulated failures, a run of `m`
consecutive DOWN checks produces exactly one DOWN decision when the
counter reaches the threshold during the run, and none otherwise. -/
theorem countDown_replicate_unalerted (t : Int) (m : Nat) :
    ∀ j : Int,
      countDown (runChecks t (Option.some ⟨j, false⟩) (List.replicate m true)) =
        if t ≤ j + m ∧ 1 ≤ m then 1 else 0 := by
  induction m with
  | zero => intro j; simp [countDown, runChecks]
  | succ m ih =>
      intro j
      rw [List.replicate_succ, runChecks_cons]
      by_cases hf : t ≤ j + 1
      · rw [should_alert_down_fire t j hf]
        have h0 := countDown_replicate_alerted t m (j + 1)
        simp only [countDown, List.countP_cons] at h0 ⊢
        rw [h0]
        simp
        split <;> omega
      · rw [should_alert_down_wait t j hf]
        simp only [countDown, List.countP_cons] at ih ⊢
        rw [ih (j + 1)]
        simp
        split <;> split <;> omega

/-- C1: from a fresh record, `k ≥ ALERT_THRESHOLD` consecutive DOWN
checks produce exactly one DOWN-alert decision across the whole run
(not `k - ALERT_THRESHOLD + 1`). -/
theorem down_alert_exactly_once (t : Int) (k : Nat) (ht : 1 ≤ t) (hk : t ≤ (k : Int)) :
    countDown (runChecks t (Option.some freshRec) (List.replicate k true)) = 1 := by
  have h := countDown_replicate_unalerted t k 0
  rw [freshRec] at *
  rw [h]
  split <;> omega

/-- Witness for C1 at `t = 2`, `k = 3`. -/
theorem down_alert_exactly_once_witness :
    countDown (runChecks 2 (Option.some freshRec) (List.replicate 3 true)) = 1 :=
  down_alert_exactly_once 2 3 (by decide) (by decide)

/-- Unfolding lemma: `runRec` on a cons. -/
theorem runRec_cons (t : Int) (r : Rec) (d : Bool) (ds : List Bool) :
    runRec t r (d :: ds) = runRec t (should_alert t (Option.some r) d).2 ds := rfl

/-- Decisions over an appended check sequence split at the intermediate
record. -/
theorem runChecks_append (t : Int) (ds es : List Bool) :
    ∀ r : Rec, runChecks t (Option.some r) (ds ++ es) =
      runChecks t (Option.some r) ds ++
        runChecks t (Option.some (runRec t r ds)) es := by
  induction ds with
  | nil => intro r; simp [runChecks, runRec]
  | cons d ds ih =>
      intro r
      rw [List.cons_append, runChecks_cons, runChecks_cons, runRec_cons, ih]
      simp

/-- Below the threshold, consecutive DOWN checks only accumulate the
failure counter and never set the alerted flag. -/
theorem runRec_replicate_below (t : Int) (m : Nat) :
    ∀ j : Int, j + m < t →
      runRec t ⟨j, false⟩ (List.replicate m true) = ⟨j + m, false⟩ := by
  induction m with
  | zero => intro j h; simp [runRec]
  | succ m ih =>
      intro j h
      rw [List.replicate_succ, runRec_cons]
      have hw : ¬ t ≤ j + 1 := by push_cast at h; omega
      rw [should_alert_down_wait t j hw]
      rw [ih (j + 1) (by push_cast at h ⊢; omega)]
      simp only [Rec.mk.injEq]
      refine ⟨by push_cast; ring, by simp⟩

/-- A run of DOWN checks never produces a RECOVERED decision. -/
theorem countRecovered_replicate (t : Int) (m : Nat) :
    ∀ r : Rec,
      countRecovered (runChecks t (Option.some r) (List.replicate m true)) = 0 := by
  induction m with
  | zero => intro r; simp [countRecovered, runChecks]
  | succ m ih =>
      intro r
      rw [List.replicate_succ, runChecks_cons]
      simp only [countRecovered, List.countP_cons] at ih ⊢
      rw [ih]
      have hhd : (should_alert t (Option.some r) true).1 ≠ Alert.recovered := by
        simp only [should_alert]
        split
        · split <;> simp
        · simp_all
      simp [hhd]

/-- C2 counterexample: with `ALERT_THRESHOLD = 2`, one DOWN check from a
fresh record leaves `alerted = false`, yet the following successful check
produces a RECOVERED decision — refuting both that RECOVERED requires a
preceding `alerted == true` record and that a below-threshold
DOWN-then-UP episode produces zero alerts. -/
theorem recovered_without_prior_alert :
    (runRec 2 freshRec [true]).alerted = false ∧
    runChecks 2 (Option.some freshRec) [true, false] =
      [Alert.none, Alert.recovered] := by
  decide

/-- C2 amended: a RECOVERED decision is produced on a successful check
iff the record immediately before it had `consecutive_failures > 0`; an
endpoint that accumulates `1 ≤ k < ALERT_THRESHOLD` DOWN checks and then
succeeds produces no DOWN alert but exactly one RECOVERED alert. -/
theorem recovered_iff_failures_pos (t : Int) (r : Rec) (k : Nat)
    (h1 : 1 ≤ k) (h2 : (k : Int) < t) :
    ((should_alert t (Option.some r) false).1 = Alert.recovered ↔ 0 < r.failures) ∧
    countDown (runChecks t (Option.some freshRec)
      (List.replicate k true ++ [false])) = 0 ∧
    countRecovered (runChecks t (Option.some freshRec)
      (List.replicate k true ++ [false])) = 1 := by
  have happ := runChecks_append t (List.replicate k true) [false] freshRec
  have hrec : runRec t freshRec (List.replicate k true) = ⟨(k : Int), false⟩ := by
    have h := runRec_replicate_below t k 0 (by omega)
    rw [freshRec]
    rw [h]
    simp
  have hk0 : (0 : Int) < (k : Int) := by exact_mod_cast h1
  have hone : runChecks t (Option.some (⟨(k : Int), false⟩ : Rec)) [false] =
      [Alert.recovered] := by
    rw [runChecks_cons]
    have : should_alert t (Option.some (⟨(k : Int), false⟩ : Rec)) false =
        (Alert.recovered, ⟨0, false⟩) := by
      simp [should_alert, hk0]
    rw [this]
    simp [runChecks]
  refine ⟨?_, ?_, ?_⟩
  · by_cases hpos : 0 < r.failures <;> simp [should_alert, hpos]
  · rw [happ, hrec, hone]
    have hrep := countDown_replicate_unalerted t k 0
    simp only [countDown, List.countP_append, List.countP_cons, List.countP_nil] at hrep ⊢
    rw [freshRec] at *
    rw [hrep]
    split
    · omega
    · simp
  · rw [happ, hrec, hone]
    have hrep := countRecovered_replicate t k freshRec
    simp only [countRecovered, List.countP_append, List.countP_cons, List.countP_nil] at hrep ⊢
    rw [hrep]
    simp

/-- Witness for the amended C2 at `t = 2`, `r = ⟨1, false⟩`, `k = 1`. -/
theorem recovered_iff_failures_pos_witness :
    ((should_alert 2 (Option.some (⟨1, false⟩ : Rec)) false).1 = Alert.recovered ↔
      0 < (⟨1, false⟩ : Rec).failures) ∧
    countDown (runChecks 2 (Option.some freshRec)
      (List.replicate 1 true ++ [false])) = 0 ∧
    countRecovered (runChecks 2 (Option.some freshRec)
      (List.replicate 1 true ++ [false])) = 1 :=
  recovered_iff_failures_pos 2 ⟨1, false⟩ 1 (by decide) (by decide)

/-- Every reachable record has a nonnegative failure counter, and its
alerted flag implies the counter has reached the threshold. -/
theorem reachable_inv (t : Int) (r : Rec) (h : Reachable t r) :
    0 ≤ r.failures ∧ (r.alerted = true → t ≤ r.failures) := by
  induction h with
  | fresh => simp [freshRec]
  | step r d _ ih =>
      obtain ⟨h0, ha⟩ := ih
      obtain ⟨f, a⟩ := r
      simp only at h0 ha
      cases d
      · by_cases hpos : (0 : Int) < f <;> simp [should_alert, hpos]
        · exact ⟨h0, fun hh => ha hh⟩
      · cases a
        · by_cases hfire : t ≤ f + 1
          · rw [should_alert_down_fire t f hfire]
            simp
            omega
          · rw [should_alert_down_wait t f hfire]
            simp
            omega
        · rw [should_alert_down_alerted t f]
          simp
          have := ha rfl
          omega

/-- C3: for reachable records (with `ALERT_THRESHOLD ≥ 1`): the alerted
flag implies a positive failure counter; a step that sets the alerted
flag does so with the counter at or past the threshold; and a successful
check resets the record to the fresh one (counter 0, alerted false) in
that same step. -/
theorem alerted_invariants_c3 (t : Int) (ht : 1 ≤ t) (r : Rec)
    (hr : Reachable t r) (d : Bool) :
    (r.alerted = true → 0 < r.failures) ∧
    (r.alerted = false → (should_alert t (Option.some r) d).2.alerted = true →
        t ≤ (should_alert t (Option.some r) d).2.failures) ∧
    (should_alert t (Option.some r) false).2 = freshRec := by
  obtain ⟨h0, ha⟩ := reachable_inv t r hr
  refine ⟨fun hh => by have := ha hh; omega, ?_, ?_⟩
  · intro halse
    obtain ⟨f, a⟩ := r
    simp only at halse
    subst halse
    cases d
    · by_cases hpos : (0 : Int) < f <;> simp [should_alert, hpos]
    · by_cases hfire : t ≤ f + 1
      · rw [should_alert_down_fire t f hfire]
        simp
        omega
      · rw [should_alert_down_wait t f hfire]
        simp
  · obtain ⟨f, a⟩ := r
    simp only at h0 ha
    by_cases hpos : (0 : Int) < f
    · simp [should_alert, hpos, freshRec]
    · have hf0 : f = 0 := by omega
      have ha0 : a = false := by
        cases a
        · rfl
        · have := ha rfl
          omega
      subst hf0
      subst ha0
      simp [should_alert, freshRec]

/-- Witness for C3 at `t = 2`, the fresh record, `d = true`. -/
theorem alerted_invariants_c3_witness :
    (freshRec.alerted = true → 0 < freshRec.failures) ∧
    (freshRec.alerted = false →
        (should_alert 2 (Option.some freshRec) true).2.alerted = true →
        (2 : Int) ≤ (should_alert 2 (Option.some freshRec) true).2.failures) ∧
    (should_alert 2 (Option.some freshRec) false).2 = freshRec :=
  alerted_invariants_c3 2 (by decide) freshRec Reachable.fresh true

/-- C4: with `ALERT_THRESHOLD = 2` and a fresh record, the first DOWN
check yields no alert decision, the second consecutive DOWN check yields
exactly one DOWN-alert decision, and a third consecutive DOWN check
yields no additional alert decision. -/
theorem threshold_boundary_c4 :
    runChecks 2 (Option.some freshRec) [true, true, true] =
      [Alert.none, Alert.down, Alert.none] := by
  decide

/-- C5: an unsuccessful probe is classified DOWN regardless of elapsed
time; a successful probe strictly over the SLA limit is SLOW; a
successful probe at or under the limit — including exactly equal — is
UP. -/
theorem classification_boundary (m rt : ℚ) :
    classify m false rt = HealthStatus.down ∧
    (m < rt → classify m true rt = HealthStatus.slow) ∧
    (rt ≤ m → classify m true rt = HealthStatus.up) := by
  refine ⟨rfl, fun h => ?_, fun h => ?_⟩
  · simp [classify, h]
  · simp [classify, not_lt.mpr h]

/-- Witness for C5 at the SLA limit `m = 2` with elapsed times `3`
(strictly over) and `2` (exactly equal). -/
theorem classification_boundary_witness :
    classify 2 false 3 = HealthStatus.down ∧
    classify 2 true 3 = HealthStatus.slow ∧
    classify 2 true 2 = HealthStatus.up :=
  ⟨(classification_boundary 2 3).1,
   (classification_boundary 2 3).2.1 (by norm_num),
   (classification_boundary 2 2).2.2 (by norm_num)⟩

/-- C6: saving right after loading is the identity on any well-formed
persisted state, and loading absent or corrupted backing data yields the
empty mapping (and, being a total function, never raises). -/
theorem state_roundtrip (m : List (String × Rec)) :
    save_state (load_state (StateFile.wellFormed m)) = StateFile.wellFormed m ∧
    load_state StateFile.absent = [] ∧
    load_state StateFile.corrupt = [] :=
  ⟨rfl, rfl, rfl⟩

/-- C7 counterexample: with threshold `2` and SLA limit `2`, a check
classified SLOW (successful, elapsed `3`) on a record with one
accumulated failure does not leave the counter unchanged — it resets it
to `0`, because `run` routes SLOW through
`should_alert(key, status == "DOWN")` with `is_down = False`. -/
theorem slow_resets_counter_counterexample :
    (runStep 2 2 (Option.some (⟨1, false⟩ : Rec)) true 3).1 = HealthStatus.slow ∧
    ¬ (runStep 2 2 (Option.some (⟨1, false⟩ : Rec)) true 3).2.2.failures =
        (⟨1, false⟩ : Rec).failures := by
  decide

/-- C7 amended: a check classified SLOW never increments the
consecutive-failure counter; it is routed as a non-DOWN check, so it
resets a positive counter to `0` (exactly like UP) and leaves a
non-positive counter unchanged. -/
theorem slow_never_increments_counter (t : Int) (m rt : ℚ) (r : Rec)
    (is_up : Bool)
    (hslow : (runStep t m (Option.some r) is_up rt).1 = HealthStatus.slow) :
    (runStep t m (Option.some r) is_up rt).2.2.failures =
      if 0 < r.failures then 0 else r.failures := by
  have hst : classify m is_up rt = HealthStatus.slow := hslow
  simp only [runStep, hst]
  by_cases hpos : 0 < r.failures <;> simp [should_alert, hpos]

/-- Witness for the amended C7 at `t = 2`, SLA limit `2`, a fresh
record and elapsed time `3`. -/
theorem slow_never_increments_counter_witness :
    (runStep 2 2 (Option.some freshRec) true 3).2.2.failures =
      if 0 < freshRec.failures then 0 else freshRec.failures :=
  slow_never_increments_counter 2 2 3 freshRec true (by decide)

/-- C9 counterexample: with threshold `2` and SLA limit `2`, a check
classified SLOW on a record with one accumulated failure does not
produce a SLOW alert delivery: `should_alert` returns `"RECOVERED"`
(the stored counter was positive) and the `elif` chain in `run`
delivers the RECOVERED alert instead, so SLOW alerting is not
independent of the stored DOWN-state record. -/
theorem slow_alert_shadowed_counterexample :
    (runStep 2 2 (Option.some (⟨1, false⟩ : Rec)) true 3).1 = HealthStatus.slow ∧
    sentAlert (runStep 2 2 (Option.some (⟨1, false⟩ : Rec)) true 3).1
        (runStep 2 2 (Option.some (⟨1, false⟩ : Rec)) true 3).2.1 =
      Sent.recovered := by
  decide

/-- C9 amended: a check classified SLOW produces a SLOW alert delivery
attempt exactly when the endpoint's stored record had no positive
failure counter; when the counter was positive, the same check's
RECOVERED decision shadows the SLOW branch of the `elif` chain and a
RECOVERED alert is delivered instead. -/
theorem slow_alert_unless_recovery (t : Int) (m rt : ℚ) (r : Rec)
    (is_up : Bool)
    (hslow : (runStep t m (Option.some r) is_up rt).1 = HealthStatus.slow) :
    sentAlert (runStep t m (Option.some r) is_up rt).1
        (runStep t m (Option.some r) is_up rt).2.1 =
      if 0 < r.failures then Sent.recovered else Sent.slow := by
  have hst : classify m is_up rt = HealthStatus.slow := hslow
  simp only [runStep, hst]
  by_cases hpos : 0 < r.failures <;> simp [should_alert, sentAlert, hpos]

/-- Witness for the amended C9 at `t = 2`, SLA limit `2`, a fresh
record and elapsed time `3`. -/
theorem slow_alert_unless_recovery_witness :
    sentAlert (runStep 2 2 (Option.some freshRec) true 3).1
        (runStep 2 2 (Option.some freshRec) true 3).2.1 =
      if 0 < freshRec.failures then Sent.recovered else Sent.slow :=
  slow_alert_unless_recovery 2 2 3 freshRec true (by decide)

/-- C8 counterexample: a stored record that is present but malformed is
not treated as a fresh HEALTHY record — the step fails.  With the empty
dict the `state["failures"] += 1` lookup raises `KeyError`; with a
string-valued `failures` field the `+= 1` raises `TypeError`. -/
theorem malformed_record_errors :
    should_alert_dyn 2 (Option.some []) true = Except.error () ∧
    should_alert_dyn 2
        (Option.some [("failures", PyVal.str "x"), ("alerted", PyVal.bool false)])
        true = Except.error () :=
  ⟨rfl, rfl⟩

/-- Unfolding lemma: `runChecks1` on a cons. -/
theorem runChecks1_cons (t : Int) (r : Option Rec1) (p : Bool × String)
    (ps : List (Bool × String)) :
    runChecks1 t r (p :: ps) =
      (should_alert_v1 t r p.1 p.2).1 ::
        runChecks1 t (Option.some (should_alert_v1 t r p.1 p.2).2) ps := rfl

/-- A successful check in the Level-1 engine unconditionally resets the
record and returns no alert. -/
theorem v1_step_up (t f : Int) (las : Option String) (now : String) :
    should_alert_v1 t (Option.some ⟨f, las⟩) false now =
      (false, ⟨0, Option.none⟩) := rfl

/-- A DOWN check in the Level-1 engine fires exactly when the counter
reaches the threshold and the stored timestamp is falsy. -/
theorem v1_step_down_fire (t f : Int) (las : Option String) (now : String)
    (h : t ≤ f + 1) (hlas : truthyStr las = false) :
    should_alert_v1 t (Option.some ⟨f, las⟩) true now =
      (true, ⟨f + 1, Option.some now⟩) := by
  simp [should_alert_v1, h, hlas]

/-- A DOWN check in the Level-1 engine that does not fire only
increments the counter. -/
theorem v1_step_down_wait (t f : Int) (las : Option String) (now : String)
    (h : ¬ (t ≤ f + 1 ∧ truthyStr las = false)) :
    should_alert_v1 t (Option.some ⟨f, las⟩) true now =
      (false, ⟨f + 1, las⟩) := by
  simp only [should_alert_v1, Option.getD]
  rw [if_pos trivial, if_neg]
  exact fun hc => h ⟨hc.1, hc.2⟩

/-- Simulation: from records related by counter equality and by
truthiness of the timestamp matching the alerted flag (plus the
reachability invariants on the Level-3 side), the two decision engines
return the DOWN-alert decision at exactly the same positions, provided
every written timestamp is a non-empty string (as
`datetime.now().isoformat()` always is). -/
theorem v1_sim (t : Int) (ps : List (Bool × String)) :
    ∀ (r1 : Rec1) (r : Rec),
      r1.consecutive_failures = r.failures →
      truthyStr r1.last_alert_sent = r.alerted →
      0 ≤ r.failures →
      (r.alerted = true → 0 < r.failures) →
      (∀ p ∈ ps, p.2 ≠ "") →
      runChecks1 t (Option.some r1) ps =
        downFlags (runChecks t (Option.some r) (ps.map Prod.fst)) := by
  induction ps with
  | nil =>
      intro r1 r _ _ _ _ _
      simp [runChecks1, runChecks, downFlags]
  | cons p ps ih =>
      obtain ⟨d, now⟩ := p
      intro r1 r hf ha h0 hinv hne
      obtain ⟨f1, las⟩ := r1
      obtain ⟨f, a⟩ := r
      simp only at hf ha h0 hinv
      subst f1
      have hnow : now ≠ "" := hne (d, now) (by simp)
      have hps : ∀ q ∈ ps, q.2 ≠ "" := fun q hq => hne q (by simp [hq])
      rw [List.map_cons, runChecks1_cons, runChecks_cons]
      simp only [downFlags, List.map_cons]
      cases d
      · rw [v1_step_up]
        by_cases hpos : (0 : Int) < f
        · have e3 : should_alert t (Option.some ⟨f, a⟩) false =
              (Alert.recovered, ⟨0, false⟩) := by
            simp [should_alert, hpos]
          rw [e3]
          refine congrArg₂ List.cons (by simp) ?_
          exact ih ⟨0, Option.none⟩ ⟨0, false⟩ rfl rfl (by simp) (by simp) hps
        · have hf0 : f = 0 := by omega
          have ha0 : a = false := by
            cases a
            · rfl
            · exact absurd (hinv rfl) (by omega)
          subst hf0
          subst ha0
          have e3 : should_alert t (Option.some (⟨0, false⟩ : Rec)) false =
              (Alert.none, ⟨0, false⟩) := by
            simp [should_alert]
          rw [e3]
          refine congrArg₂ List.cons (by simp) ?_
          exact ih ⟨0, Option.none⟩ ⟨0, false⟩ rfl rfl (by simp) (by simp) hps
      · cases a
        · by_cases hfi : t ≤ f + 1
          · rw [v1_step_down_fire t f las now hfi ha,
              should_alert_down_fire t f hfi]
            refine congrArg₂ List.cons (by simp) ?_
            refine ih ⟨f + 1, Option.some now⟩ ⟨f + 1, true⟩ rfl ?_
              (show (0 : Int) ≤ f + 1 by omega)
              (fun _ => show (0 : Int) < f + 1 by omega) hps
            simp [truthyStr, hnow]
          · rw [v1_step_down_wait t f las now (fun hc => hfi hc.1),
              should_alert_down_wait t f hfi]
            refine congrArg₂ List.cons (by simp) ?_
            exact ih ⟨f + 1, las⟩ ⟨f + 1, false⟩ rfl ha
              (show (0 : Int) ≤ f + 1 by omega) (by simp) hps
        · have hlas : ¬ (t ≤ f + 1 ∧ truthyStr las = false) := by
            intro hc
            rw [ha] at hc
            exact absurd hc.2 (by simp)
          rw [v1_step_down_wait t f las now hlas, should_alert_down_alerted t f]
          refine congrArg₂ List.cons (by simp) ?_
          refine ih ⟨f + 1, las⟩ ⟨f + 1, true⟩ rfl ha
            (show (0 : Int) ≤ f + 1 by omega)
            (fun _ => show (0 : Int) < f + 1 by have := hinv rfl; omega) hps

/-- C10: starting from the empty state, the Level-1 decision engine of
`project.py` (episode tracked via truthiness of the `last_alert_sent`
timestamp) and the Level-3 decision engine of `04_project.py` (episode
tracked via the boolean `alerted` flag) return the DOWN-alert decision
`True` at exactly the same positions of any check sequence, for any
non-empty timestamp strings. -/
theorem v1_v3_same_down_decisions (t : Int) (ps : List (Bool × String))
    (hne : ∀ p ∈ ps, p.2 ≠ "") :
    runChecks1 t Option.none ps =
      downFlags (runChecks t Option.none (ps.map Prod.fst)) := by
  cases ps with
  | nil => rfl
  | cons p ps =>
      have h1 : runChecks1 t Option.none (p :: ps) =
          runChecks1 t (Option.some fresh1) (p :: ps) := rfl
      have h3 : runChecks t Option.none ((p :: ps).map Prod.fst) =
          runChecks t (Option.some freshRec) ((p :: ps).map Prod.fst) := rfl
      rw [h1, h3]
      exact v1_sim t (p :: ps) fresh1 freshRec rfl rfl (by simp [freshRec])
        (by simp [freshRec]) hne

/-- Witness for C10 at `t = 2` on the sequence DOWN, DOWN, UP with
concrete timestamps. -/
theorem v1_v3_same_down_decisions_witness :
    runChecks1 2 Option.none [(true, "t1"), (true, "t2"), (false, "t3")] =
      downFlags (runChecks 2 Option.none
        ([(true, "t1"), (true, "t2"), (false, "t3")].map Prod.fst)) :=
  v1_v3_same_down_decisions 2 [(true, "t1"), (true, "t2"), (false, "t3")]
    (by decide)

/-- C8 amended: `should_alert` completes without error whenever the
endpoint's key is absent (the record is then created fresh by
`setdefault`, so the absent case behaves exactly like a fresh HEALTHY
record) or the stored record is well-formed; on well-formed records the
dynamic step agrees with the typed state machine.  A present but
malformed record is the one exception and makes the step raise. -/
theorem dyn_step_total_on_wellformed (t f : Int) (a d : Bool) :
    should_alert_dyn t Option.none d = should_alert_dyn t (Option.some freshDyn) d ∧
    should_alert_dyn t (Option.some (mkDyn f a)) d =
      Except.ok ((should_alert t (Option.some ⟨f, a⟩) d).1,
        mkDyn (should_alert t (Option.some ⟨f, a⟩) d).2.failures
          (should_alert t (Option.some ⟨f, a⟩) d).2.alerted) := by
  constructor
  · rfl
  · cases d
    · by_cases hpos : 0 < f <;>
        simp [should_alert_dyn, should_alert, mkDyn, lookupKey, setKey, asNum,
          truthy, hpos]
    · by_cases hge : t ≤ f + 1
      · cases a <;>
          simp [should_alert_dyn, should_alert, mkDyn, lookupKey, setKey, asNum,
            truthy, hge]
      · cases a <;>
          simp [should_alert_dyn, should_alert, mkDyn, lookupKey, setKey, asNum,
            truthy, hge]

end HealthMonitor
